import Mathlib

/- Shallow embedding of the Run-SH-Manager supervision core:
   src/backend/models.py, src/backend/profile_store.py,
   src/backend/process_runner.py and src/backend/manager.py.
   Pure data and control flow are translated directly; OS interactions
   (process launch results, signal delivery, exit timing) enter through
   explicit oracle records so that every scenario the OS can produce is a
   value the definitions can be run on. -/

/-- Lifecycle states for a managed script process (models.ProcessState). -/
inductive ProcessState where
  | stopped
  | starting
  | running
  | restarting
  | exited
  | failed
  deriving DecidableEq

/-- Runtime status record for a managed script (models.ProcessStatus).
Python floats are modelled as rationals. -/
structure ProcessStatus where
  name : String
  state : ProcessState := .stopped
  pid : Option Int := none
  start_time : Option ℚ := none
  restarts : Nat := 0
  last_exit_code : Option Int := none
  last_error : Option String := none
  deriving DecidableEq

/-- Configuration profile for a script run (models.ScriptProfile).
The `environment` dict is an insertion-ordered association list. -/
structure ScriptProfile where
  name : String
  script_path : String
  working_dir : Option String := none
  auto_start : Bool := false
  restart_on_exit : Bool := true
  restart_delay : ℚ := 5
  start_delay : ℚ := 0
  environment : List (String × String) := []
  log_path : Option String := none
  max_restarts : Option Int := none
  enabled : Bool := true
  deriving DecidableEq

/-- Spaces of a profile name are replaced by underscores when deriving the
default log file name (models.ScriptProfile.ensure_paths: the
single-character replace is a character-wise map). -/
def safeName (s : String) : String :=
  String.mk (s.data.map (fun c => if c = ' ' then '_' else c))

/-- ScriptProfile.ensure_paths: when no log path is configured, derive the
default one under baseDir/logs; when one is configured the method only
creates its parent directory on disk and changes no field. -/
def ensurePaths (baseDir : String) (p : ScriptProfile) : ScriptProfile :=
  match p.log_path with
  | none => { p with log_path := some (baseDir ++ "/logs/" ++ safeName p.name ++ ".log") }
  | some _ => p

/-- JSON values as produced by json.loads and consumed by json.dumps.
Python keeps integers and floats apart, so the model does too. -/
inductive JValue where
  | null
  | bool (b : Bool)
  | jint (n : Int)
  | jnum (q : ℚ)
  | str (s : String)
  | arr (items : List JValue)
  | obj (fields : List (String × JValue))

/-- First-match lookup in an insertion-ordered association list
(Python dict read access). -/
def lookupA {α : Type} : List (String × α) → String → Option α
  | [], _ => none
  | (k, v) :: rest, key => if k = key then some v else lookupA rest key

/-- Optional strings serialize to null or a JSON string (asdict keeps None). -/
def optStrJson : Option String → JValue
  | none => JValue.null
  | some s => JValue.str s

def optIntJson : Option Int → JValue
  | none => JValue.null
  | some n => JValue.jint n

/-- ScriptProfile.to_dict: the key/value pairs of dataclasses.asdict in
declaration order. -/
def profileFields (p : ScriptProfile) : List (String × JValue) :=
    [ ("name", JValue.str p.name)
    , ("script_path", JValue.str p.script_path)
    , ("working_dir", optStrJson p.working_dir)
    , ("auto_start", JValue.bool p.auto_start)
    , ("restart_on_exit", JValue.bool p.restart_on_exit)
    , ("restart_delay", JValue.jnum p.restart_delay)
    , ("start_delay", JValue.jnum p.start_delay)
    , ("environment", JValue.obj (p.environment.map (fun kv => (kv.1, JValue.str kv.2))))
    , ("log_path", optStrJson p.log_path)
    , ("max_restarts", optIntJson p.max_restarts)
    , ("enabled", JValue.bool p.enabled) ]

/-- ScriptProfile.to_dict as a JSON object. -/
def profileToJson (p : ScriptProfile) : JValue :=
  JValue.obj (profileFields p)

def asBool : JValue → Option Bool
  | .bool b => some b
  | _ => none

/-- A JSON number where a float field is expected; an integer is accepted
as well, as Python would. -/
def asNum : JValue → Option ℚ
  | .jnum q => some q
  | .jint n => some (n : ℚ)
  | _ => none

def asOptStr : JValue → Option (Option String)
  | .null => some none
  | .str s => some (some s)
  | _ => none

def asOptInt : JValue → Option (Option Int)
  | .null => some none
  | .jint n => some (some n)
  | _ => none

/-- Environment object: every value must be a string. -/
def envFromJson : List (String × JValue) → Option (List (String × String))
  | [] => some []
  | (k, .str v) :: rest => (envFromJson rest).map (fun tail => (k, v) :: tail)
  | _ => none

def asEnvObj : JValue → Option (List (String × String))
  | .obj kvs => envFromJson kvs
  | _ => none

def reqStr (kvs : List (String × JValue)) (k : String) : Option String :=
  match lookupA kvs k with
  | some (.str s) => some s
  | _ => none

def optWithDefault {α : Type} (kvs : List (String × JValue)) (k : String)
    (conv : JValue → Option α) (dflt : α) : Option α :=
  match lookupA kvs k with
  | none => some dflt
  | some v => conv v

def knownProfileKeys : List String :=
  ["name", "script_path", "working_dir", "auto_start", "restart_on_exit",
   "restart_delay", "start_delay", "environment", "log_path", "max_restarts", "enabled"]

/-- ScriptProfile.from_dict, which calls cls(**data): unknown keys raise
TypeError, missing required fields raise TypeError, absent optional fields
take the dataclass defaults. Failures are modelled as none. The model
additionally type-checks field values (Python dataclasses do not), which is
harmless for stores produced by save_profiles. -/
def profileFromDict (kvs : List (String × JValue)) : Option ScriptProfile :=
  if kvs.all (fun kv => knownProfileKeys.contains kv.1) then do
    let name ← reqStr kvs "name"
    let script_path ← reqStr kvs "script_path"
    let working_dir ← optWithDefault kvs "working_dir" asOptStr none
    let auto_start ← optWithDefault kvs "auto_start" asBool false
    let restart_on_exit ← optWithDefault kvs "restart_on_exit" asBool true
    let restart_delay ← optWithDefault kvs "restart_delay" asNum 5
    let start_delay ← optWithDefault kvs "start_delay" asNum 0
    let environment ← optWithDefault kvs "environment" asEnvObj []
    let log_path ← optWithDefault kvs "log_path" asOptStr none
    let max_restarts ← optWithDefault kvs "max_restarts" asOptInt none
    let enabled ← optWithDefault kvs "enabled" asBool true
    pure { name, script_path, working_dir, auto_start, restart_on_exit,
           restart_delay, start_delay, environment, log_path, max_restarts, enabled }
  else none

/-- Contents of the profiles.json store file, classified by how far the
decoding pipeline (read_text as UTF-8, then json.loads) gets on them. -/
inductive StoreFile where
  | absent
  | corruptUtf8 (bytes : List Nat)
  | corruptJson (text : String)
  | wellFormed (v : JValue)

inductive LoadErr where
  | unicodeDecodeError
  | jsonDecodeError
  | typeError
  deriving DecidableEq

/-- Result of one load_profiles call: the returned value or raised error,
the contents written to the sibling .bak path (if any), and the store file
itself afterwards. -/
structure LoadOutcome where
  result : Except LoadErr (List ScriptProfile)
  backup : Option StoreFile
  storeAfter : StoreFile

/-- Per-item decoding of the loaded JSON array: each item must be an
object acceptable to from_dict, and ensure_paths is applied to each
profile in order. A non-object item makes cls(**item) raise TypeError. -/
def profilesFromItems (base : String) : List JValue → Option (List ScriptProfile)
  | [] => some []
  | item :: rest =>
    match item with
    | .obj kvs =>
      match profileFromDict kvs with
      | some p => (profilesFromItems base rest).map (ensurePaths base p :: ·)
      | none => none
    | _ => none

/-- ProfileStore.load_profiles as a function of the store file contents.
read_text raises UnicodeDecodeError on bytes that are not UTF-8; that
exception is NOT caught by the json.JSONDecodeError handler, so no backup
is written on that path. A json.loads failure writes a byte-identical
.bak copy (write_bytes of read_bytes) before re-raising. The canonical
file is only ever read, never written, by load. -/
def loadProfiles (base : String) (f : StoreFile) : LoadOutcome :=
  match f with
  | .absent => { result := .ok [], backup := none, storeAfter := .absent }
  | .corruptUtf8 bs =>
    { result := .error .unicodeDecodeError, backup := none, storeAfter := .corruptUtf8 bs }
  | .corruptJson s =>
    { result := .error .jsonDecodeError, backup := some (.corruptJson s),
      storeAfter := .corruptJson s }
  | .wellFormed v =>
    let res : Except LoadErr (List ScriptProfile) :=
      match v with
      | .arr items =>
        match profilesFromItems base items with
        | some ps => .ok ps
        | none => .error .typeError
      | _ => .error .typeError
    { result := res, backup := none, storeAfter := .wellFormed v }

/-- ProfileStore.save_profiles: normalize each profile's paths, serialize
the list, write a temporary sibling file and atomically rename it over the
canonical path. Only the final file contents are observable here; the
temp-and-rename step leaves no intermediate state to model. -/
def saveProfiles (base : String) (ps : List ScriptProfile) : StoreFile :=
  .wellFormed (.arr (ps.map (fun p => profileToJson (ensurePaths base p))))

/-- Path.expanduser on the script path: a leading tilde component is
replaced by the home directory. A tilde-user form would need an account
lookup and is returned unchanged here. -/
def expanduser (home s : String) : String :=
  match s.data with
  | '~' :: rest =>
    match rest with
    | [] => home
    | '/' :: _ => home ++ String.mk rest
    | _ => s
  | _ => s

/-- The slice of the file system the runner consults: existing regular
files, the subset that is executable, and the home directory. -/
structure FS where
  files : List String
  execFiles : List String
  home : String

/-- Argument vector built by _launch_process: an executable script file is
invoked directly, anything else through /bin/bash. -/
def launchCommand (fs : FS) (scriptPath : String) : List String :=
  if fs.execFiles.contains scriptPath && fs.files.contains scriptPath then [scriptPath]
  else ["/bin/bash", scriptPath]

/-- ProcessRunner._launch_process: resolve and check the script path,
raising FileNotFoundError when it does not exist; afterwards the log file
open and the Popen call either produce a process id or raise, which the
oracle popenRes supplies. On success the child runs in a new session with
stdout and stderr appended to the log file. -/
def launchProcess (fs : FS) (p : ScriptProfile) (popenRes : Except String Int) :
    Except String Int :=
  let path := expanduser fs.home p.script_path
  if fs.files.contains path then popenRes
  else .error ("Script not found: " ++ path)

/-- OS-visible outcome of one supervisory-loop iteration: whether the
cancellation flag was observed set at the while check, what the launch
attempt produced, the wall-clock time recorded at launch, the exit code
process.wait returned, and whether the cancellation flag was set by the
time the wait returned. -/
structure IterEnv where
  stopAtHead : Bool := false
  popenRes : Except String Int := .ok 1000
  launchTime : ℚ := 0
  exitCode : Int := 0
  stopAfterWait : Bool := false

/-- Restart budget check of _run_loop: max_restarts is not None and the
attempt counter exceeds it. -/
def exceedsBudget : Option Int → Nat → Bool
  | some m, attempts => decide (m < (attempts : Int))
  | none, _ => false

/-- ProcessRunner._run_loop, body of the while loop. The returned pair is
the final status record and the list of status snapshots handed to the
status callback, in emission order. Each iteration consumes one IterEnv.
An exhausted environment list behaves like a set cancellation flag: the
while condition stops the loop without touching the status.
The source's `if process is None` arm is unreachable (_launch_process
returns a process or raises) and has no counterpart here; the start_delay
and restart_delay sleeps only affect timing. A raised launch exception is
caught by the iteration's except handler, which records FAILED with the
message and breaks, so the loop itself always returns normally. -/
def runLoopAux (p : ScriptProfile) (fs : FS) :
    List IterEnv → Nat → ProcessStatus → ProcessStatus × List ProcessStatus
  | [], _, st => (st, [])
  | e :: rest, attempts, st =>
    if e.stopAtHead then (st, [])
    else
      let st1 := { st with state := ProcessState.starting }
      match launchProcess fs p e.popenRes with
      | .error msg =>
        let st2 := { st1 with state := ProcessState.failed, last_error := some msg }
        (st2, [st1, st2])
      | .ok pid =>
        let st2 := { st1 with pid := some pid, start_time := some e.launchTime, state := ProcessState.running }
        let st3 := { st2 with last_exit_code := some e.exitCode, pid := none }
        if e.stopAfterWait then
          let st4 := { st3 with state := ProcessState.stopped }
          (st4, [st1, st2, st4])
        else if !p.restart_on_exit then
          let st4 := { st3 with state := ProcessState.exited }
          (st4, [st1, st2, st4])
        else
          let attempts1 := attempts + 1
          let st4 := { st3 with restarts := attempts1 }
          if exceedsBudget p.max_restarts attempts1 then
            let st5 := { st4 with state := ProcessState.failed, last_error := some "Reached max restart attempts" }
            (st5, [st1, st2, st5])
          else
            let st5 := { st4 with state := ProcessState.restarting }
            let rec1 := runLoopAux p fs rest attempts1 st5
            (rec1.1, [st1, st2, st5] ++ rec1.2)

/-- ProcessRunner._run_loop from its entry: the restart counter of the
status record is reset to zero before the first while check. -/
def runLoop (p : ScriptProfile) (fs : FS) (envs : List IterEnv)
    (st0 : ProcessStatus) : ProcessStatus × List ProcessStatus :=
  runLoopAux p fs envs 0 { st0 with restarts := 0 }

/-- Projection of an emitted snapshot list to the visible state sequence. -/
def statesOf (outs : List ProcessStatus) : List ProcessState :=
  outs.map (fun st => st.state)

/-- Signals used by the termination escalation ladder. -/
inductive Sig where
  | sigterm
  | sigint
  | sigkill
  deriving DecidableEq

/-- Outcome of the os.killpg attempt on the process group. -/
inductive KillpgOutcome where
  | delivered
  | noSuchProcess
  | permissionDenied
  deriving DecidableEq

/-- Outcome of the per-process send_signal fallback. -/
inductive FallbackOutcome where
  | delivered
  | noSuchProcess
  | otherError
  deriving DecidableEq

/-- What the OS does with one _send_signal call: the process-group attempt
and, should it be denied, the single-process fallback. -/
structure SigAttempt where
  killpg : KillpgOutcome
  fallback : FallbackOutcome
  deriving DecidableEq

/-- ProcessRunner._send_signal: killpg on the group first; a
ProcessLookupError anywhere is success (the process is already gone); a
PermissionError falls back to signalling the single process; any other
fallback failure reports false. -/
def sendSignalResult (a : SigAttempt) : Bool :=
  match a.killpg with
  | .delivered => true
  | .noSuchProcess => true
  | .permissionDenied =>
    match a.fallback with
    | .delivered => true
    | .noSuchProcess => true
    | .otherError => false

/-- OS behaviour during one _terminate_process call: the three signal
attempts, whether each bounded wait saw the process exit, and what poll()
reported at the escalation check. -/
structure TermEnv where
  termAttempt : SigAttempt
  exitWithin10 : Bool
  aliveAtCheck : Bool
  intAttempt : SigAttempt
  exitWithin5a : Bool
  killAttempt : SigAttempt
  exitWithin5b : Bool
  deriving DecidableEq

/-- Observable actions of the termination ladder, in order: a signal send
attempt, or a bounded wait with its timeout in seconds and whether the
process exited within it. -/
inductive TermEvent where
  | sent (s : Sig)
  | waited (timeout : Nat) (exited : Bool)
  deriving DecidableEq

/-- ProcessRunner._terminate_process: SIGTERM, then — when the graceful
wait did not confirm exit and the caller forced or poll() still reports
the process alive — SIGINT with a 5 second wait, then SIGKILL with a
5 second wait. A send that reports failure (not process-gone) skips the
10 second wait and falls through to the escalation check. -/
def terminateProcess (env : TermEnv) (force : Bool) : List TermEvent :=
  let rung23 : List TermEvent :=
    [TermEvent.sent Sig.sigint, TermEvent.waited 5 env.exitWithin5a] ++
      (if env.exitWithin5a then []
       else [TermEvent.sent Sig.sigkill, TermEvent.waited 5 env.exitWithin5b])
  let escalate : List TermEvent := if force || env.aliveAtCheck then rung23 else []
  if sendSignalResult env.termAttempt then
    if env.exitWithin10 then [TermEvent.sent Sig.sigterm, TermEvent.waited 10 true]
    else [TermEvent.sent Sig.sigterm, TermEvent.waited 10 false] ++ escalate
  else [TermEvent.sent Sig.sigterm] ++ escalate

/-- The escalation ladder as the specification words it: send the graceful
terminate signal and wait up to 10 seconds; if the process is still alive
(or force was requested) send an interrupt signal and wait up to
5 seconds; if still alive send the unconditional kill signal and wait up
to 5 seconds. -/
def specLadder (env : TermEnv) (force : Bool) : List TermEvent :=
  [TermEvent.sent Sig.sigterm, TermEvent.waited 10 env.exitWithin10] ++
    (if env.exitWithin10 then []
     else if env.aliveAtCheck || force then
       [TermEvent.sent Sig.sigint, TermEvent.waited 5 env.exitWithin5a] ++
         (if env.exitWithin5a then []
          else [TermEvent.sent Sig.sigkill, TermEvent.waited 5 env.exitWithin5b])
     else [])

/-- Handle on a launched OS process as the runner sees it: the pid and
whether poll() still reports the process alive. -/
structure ProcHandle where
  pid : Int
  alive : Bool
  deriving DecidableEq

/-- Mutable fields of one ProcessRunner, together with the profile it was
constructed with. threadAlive models `self._thread and
self._thread.is_alive()`; launches counts how many supervisory loop
threads have been spawned (each Thread.start call), which is the
observable meaning of "the unit was launched". -/
structure RunnerSt where
  profile : ScriptProfile
  status : ProcessStatus
  threadAlive : Bool := false
  stopEventSet : Bool := false
  process : Option ProcHandle := none
  launches : Nat := 0
  deriving DecidableEq

/-- Effects of one ProcessRunner.stop call: the termination ladder trace,
when one was run, and the status snapshots emitted. -/
structure StopEffects where
  ladder : Option (List TermEvent)
  emits : List ProcessStatus
  deriving DecidableEq

/-- ProcessRunner.start: a no-op while a loop thread is alive; otherwise
the cancellation flag is cleared and a fresh loop thread is spawned. -/
def RunnerSt.start (r : RunnerSt) : RunnerSt :=
  if r.threadAlive then r
  else { r with stopEventSet := false, threadAlive := true, launches := r.launches + 1 }

/-- ProcessRunner.is_running: a process handle exists and poll() reports
it alive. -/
def RunnerSt.isRunning (r : RunnerSt) : Bool :=
  match r.process with
  | some ph => ph.alive
  | none => false

/-- ProcessRunner.stop: set the cancellation flag; run the termination
ladder only when a live process is attached; join the loop thread with a
bounded timeout (the loop observes the flag at its next decision point
and exits, so the joined thread is no longer alive); then clear the
process handle, force the status to STOPPED with no pid, and notify. -/
def RunnerSt.stop (r : RunnerSt) (force : Bool) (env : TermEnv) :
    RunnerSt × StopEffects :=
  let r1 := { r with stopEventSet := true }
  let ladder : Option (List TermEvent) :=
    match r1.process with
    | some ph => if ph.alive then some (terminateProcess env force) else none
    | none => none
  let stoppedStatus := { r1.status with state := ProcessState.stopped, pid := none }
  let r2 := { r1 with threadAlive := false, process := none, status := stoppedStatus }
  (r2, { ladder := ladder, emits := [stoppedStatus] })

/-- ProcessRunner.restart: stop with default force, then start. -/
def RunnerSt.restart (r : RunnerSt) (env : TermEnv) : RunnerSt × StopEffects :=
  let s := r.stop false env
  (s.1.start, s.2)

/-- Registry errors surfaced by ScriptManager commands: KeyError for an
unknown name, ValueError for a duplicate name. -/
inductive MgrErr where
  | notFound
  | nameConflict
  deriving DecidableEq

/-- ScriptManager state: the three insertion-ordered maps it guards with
its lock, the store file, and the store's base directory. -/
structure MgrState where
  profiles : List (String × ScriptProfile)
  runners : List (String × RunnerSt)
  statuses : List (String × ProcessStatus)
  storeFile : StoreFile
  baseDir : String

/-- Python dict assignment d[k] = v: replace in place when the key exists,
append otherwise. -/
def insertA {α : Type} : List (String × α) → String → α → List (String × α)
  | [], key, v => [(key, v)]
  | (k, w) :: rest, key, v =>
    if k = key then (k, v) :: rest else (k, w) :: insertA rest key v

/-- Python dict pop: drop the first binding of the key. -/
def eraseA {α : Type} : List (String × α) → String → List (String × α)
  | [], _ => []
  | (k, w) :: rest, key => if k = key then rest else (k, w) :: eraseA rest key

/-- ScriptManager._register_profile: normalize the profile's paths, store
it, create a fresh status and a runner sharing that status. -/
def registerProfile (s : MgrState) (p0 : ScriptProfile) : MgrState :=
  let p := ensurePaths s.baseDir p0
  let status : ProcessStatus := { name := p.name }
  { s with
      profiles := insertA s.profiles p.name p,
      statuses := insertA s.statuses p.name status,
      runners := insertA s.runners p.name { profile := p, status := status } }

/-- ScriptManager.save: write the full profile set to the store. -/
def mgrSave (s : MgrState) : MgrState :=
  { s with storeFile := saveProfiles s.baseDir (s.profiles.map (fun kv => kv.2)) }

/-- ScriptManager.start_profile: silently return when the name is unknown
or the profile is disabled; otherwise delegate to the runner's start. -/
def startProfile (s : MgrState) (name : String) : MgrState :=
  match lookupA s.profiles name with
  | none => s
  | some p =>
    if p.enabled then
      match lookupA s.runners name with
      | some r => { s with runners := insertA s.runners name r.start }
      | none => s
    else s

/-- ScriptManager.stop_profile: delegate to the runner when present; the
emitted STOPPED snapshot reaches _on_runner_update, which stores it in the
status map. -/
def stopProfile (s : MgrState) (name : String) (force : Bool) (env : TermEnv) : MgrState :=
  match lookupA s.runners name with
  | none => s
  | some r =>
    let res := r.stop force env
    { s with runners := insertA s.runners name res.1,
             statuses := insertA s.statuses name res.1.status }

/-- ScriptManager.restart_profile: delegate to the runner's restart when
present — the profile's enabled flag is not consulted. -/
def restartProfile (s : MgrState) (name : String) (env : TermEnv) : MgrState :=
  match lookupA s.runners name with
  | none => s
  | some r =>
    let res := r.restart env
    { s with runners := insertA s.runners name res.1,
             statuses := insertA s.statuses name res.1.status }

/-- ScriptManager.start_auto_profiles: snapshot the profile list, then
start every enabled profile marked auto_start. -/
def startAutoProfiles (s : MgrState) : MgrState :=
  (s.profiles.map (fun kv => kv.2)).foldl
    (fun acc p => if p.enabled && p.auto_start then startProfile acc p.name else acc) s

/-- ScriptManager.add_profile: a duplicate name raises ValueError before
any change; otherwise register and persist. -/
def addProfile (s : MgrState) (p : ScriptProfile) : MgrState × Option MgrErr :=
  if (lookupA s.profiles p.name).isSome then (s, some MgrErr.nameConflict)
  else (mgrSave (registerProfile s p), none)

/-- ScriptManager.update_profile: unknown old name raises KeyError and a
rename colliding with a different existing entry raises ValueError, both
before any mutation. Otherwise: stop the old runner (remembering whether
it was running), drop the old entries, register the new profile, restart
it when it was running and the new profile is enabled, and persist. -/
def updateProfile (s : MgrState) (name : String) (newp : ScriptProfile) (env : TermEnv) :
    MgrState × Option MgrErr :=
  if (lookupA s.profiles name).isNone then (s, some MgrErr.notFound)
  else if newp.name ≠ name && (lookupA s.profiles newp.name).isSome then
    (s, some MgrErr.nameConflict)
  else
    let runner0 := lookupA s.runners name
    let wasRunning := match runner0 with
      | some r => r.isRunning
      | none => false
    let s1 := match runner0 with
      | some r =>
        let res := r.stop false env
        { s with runners := insertA s.runners name res.1,
                 statuses := insertA s.statuses name res.1.status }
      | none => s
    let s2 := { s1 with profiles := eraseA s1.profiles name,
                        statuses := eraseA s1.statuses name,
                        runners := eraseA s1.runners name }
    let s3 := registerProfile s2 newp
    let s4 := if wasRunning && newp.enabled then startProfile s3 newp.name else s3
    (mgrSave s4, none)

/-- ScriptManager.remove_profile: pop and stop the runner when present
(the stop's emitted snapshot is written back by _on_runner_update), then
drop the profile and status entries and persist; an unknown name is a
silent no-op apart from the save. -/
def removeProfile (s : MgrState) (name : String) (env : TermEnv) : MgrState :=
  let runner0 := lookupA s.runners name
  let s1 := { s with runners := eraseA s.runners name }
  let s2 := match runner0 with
    | some r =>
      let res := r.stop false env
      { s1 with statuses := insertA s1.statuses name res.1.status }
    | none => s1
  let s3 := { s2 with profiles := eraseA s2.profiles name,
                      statuses := eraseA s2.statuses name }
  mgrSave s3

/-- Per-transition restart accounting over an emitted snapshot trace: a
RESTARTING snapshot carries exactly one more restart than its
predecessor, a FAILED snapshot carries the same count (launch failure) or
one more (budget exhaustion), and every other snapshot carries the same
count — in particular a STOPPED snapshot never increments it. -/
def restartStep (a b : ProcessStatus) : Prop :=
  match b.state with
  | ProcessState.restarting => b.restarts = a.restarts + 1
  | ProcessState.failed => b.restarts = a.restarts ∨ b.restarts = a.restarts + 1
  | _ => b.restarts = a.restarts

/-- An OS behaviour in which every signal is delivered and every wait sees
the process exit promptly. -/
def termEnvQuick : TermEnv :=
  { termAttempt := { killpg := KillpgOutcome.delivered, fallback := FallbackOutcome.delivered },
    exitWithin10 := true, aliveAtCheck := false,
    intAttempt := { killpg := KillpgOutcome.delivered, fallback := FallbackOutcome.delivered },
    exitWithin5a := true,
    killAttempt := { killpg := KillpgOutcome.delivered, fallback := FallbackOutcome.delivered },
    exitWithin5b := true }

/-- An OS behaviour in which the process ignores SIGTERM and SIGINT and
only dies to SIGKILL. -/
def termEnvStuck : TermEnv :=
  { termAttempt := { killpg := KillpgOutcome.delivered, fallback := FallbackOutcome.delivered },
    exitWithin10 := false, aliveAtCheck := true,
    intAttempt := { killpg := KillpgOutcome.delivered, fallback := FallbackOutcome.delivered },
    exitWithin5a := false,
    killAttempt := { killpg := KillpgOutcome.delivered, fallback := FallbackOutcome.delivered },
    exitWithin5b := true }

/-- Scenario profile for the restart budget claims: restart_on_exit with
a 0.1 second restart delay and the given restart cap. -/
def c1Profile (n : Int) : ScriptProfile :=
  { name := "p1", script_path := "/scripts/p1.sh", restart_on_exit := true,
    restart_delay := 1/10, max_restarts := some n,
    log_path := some "/base/logs/p1.log" }

/-- An iteration in which the launch succeeds and the script exits at once
with code 0, with no cancellation request. -/
def c1Iter : IterEnv :=
  { stopAtHead := false, popenRes := Except.ok 4242, launchTime := 0,
    exitCode := 0, stopAfterWait := false }

def c1Fs : FS := { files := ["/scripts/p1.sh"], execFiles := [], home := "/home/user" }

def c1St0 : ProcessStatus := { name := "p1" }

/-- A registered but disabled profile. -/
def c2Profile : ScriptProfile :=
  { name := "d1", script_path := "/scripts/d1.sh", enabled := false,
    log_path := some "/base/logs/d1.log" }

def c2Mgr0 : MgrState :=
  registerProfile
    { profiles := [], runners := [], statuses := [], storeFile := StoreFile.absent,
      baseDir := "/base" } c2Profile

/-- Profile whose script path points to a file that does not exist. -/
def c6Profile : ScriptProfile :=
  { name := "p2", script_path := "/scripts/does-not-exist.sh",
    log_path := some "/base/logs/p2.log" }

def c6Fs : FS := { files := [], execFiles := [], home := "/home/user" }

def c6Iter : IterEnv := { stopAtHead := false }

def c6St0 : ProcessStatus := { name := "p2" }

/-- An iteration in which the process is launched, then stop() is called
while it runs: the wait returns with the cancellation flag already set. -/
def c8Iter : IterEnv :=
  { stopAtHead := false, popenRes := Except.ok 5151, launchTime := 0,
    exitCode := 0, stopAfterWait := true }

def c8Profile : ScriptProfile :=
  { name := "p3", script_path := "/scripts/p3.sh",
    log_path := some "/base/logs/p3.log" }

def c8Fs : FS := { files := ["/scripts/p3.sh"], execFiles := [], home := "/home/user" }

def c8St0 : ProcessStatus := { name := "p3", state := ProcessState.restarting, restarts := 0 }

def c9ProfileA : ScriptProfile :=
  { name := "a", script_path := "/scripts/a.sh", log_path := some "/base/logs/a.log" }

def c9ProfileB : ScriptProfile :=
  { name := "b", script_path := "/scripts/b.sh", log_path := some "/base/logs/b.log" }

/-- Runner of unit a, currently supervising a live process. -/
def c9RunnerA : RunnerSt :=
  { profile := c9ProfileA,
    status := { name := "a", state := ProcessState.running, pid := some 77 },
    threadAlive := true, stopEventSet := false,
    process := some { pid := 77, alive := true }, launches := 1 }

def c9RunnerB : RunnerSt :=
  { profile := c9ProfileB, status := { name := "b" } }

def c9Mgr : MgrState :=
  { profiles := [("a", c9ProfileA), ("b", c9ProfileB)],
    runners := [("a", c9RunnerA), ("b", c9RunnerB)],
    statuses := [("a", c9RunnerA.status), ("b", c9RunnerB.status)],
    storeFile := StoreFile.absent, baseDir := "/base" }

/-- The update that renames unit a to the already-taken name b. -/
def c9NewProfile : ScriptProfile := { c9ProfileA with name := "b" }

def c10Profile : ScriptProfile :=
  { name := "p5", script_path := "/scripts/p5.sh", restart_on_exit := false,
    log_path := some "/base/logs/p5.log" }

def c10Fs : FS := { files := ["/scripts/p5.sh"], execFiles := [], home := "/home/user" }

def c10Iter : IterEnv := { stopAtHead := false, popenRes := Except.ok 808, exitCode := 3 }

/-- Status left over by an earlier failed run. -/
def c10St0 : ProcessStatus :=
  { name := "p5", state := ProcessState.failed, restarts := 4,
    last_exit_code := some 1, last_error := some "Reached max restart attempts" }

def c10St1 : ProcessStatus := { name := "p5" }

/- ------------------------------------------------------------------ -/
/- Helper lemmas                                                       -/
/- ------------------------------------------------------------------ -/

theorem envFromJson_roundtrip (l : List (String × String)) :
    envFromJson (l.map (fun kv => (kv.1, JValue.str kv.2))) = some l := by
  induction l with
  | nil => rfl
  | cons kv rest ih =>
    obtain ⟨k, v⟩ := kv
    simp [envFromJson, ih]

theorem profileFromDict_profileFields (p : ScriptProfile) :
    profileFromDict (profileFields p) = some p := by
  obtain ⟨nm, sp, wd, au, roe, rd, sd, env, lp, mr, en⟩ := p
  cases wd <;> cases lp <;> cases mr <;>
    simp [profileFields, profileFromDict, reqStr, lookupA, optWithDefault,
          asBool, asNum, asOptStr, asOptInt, asEnvObj, optStrJson, optIntJson,
          envFromJson_roundtrip, knownProfileKeys]

theorem ensurePaths_idem (base : String) (p : ScriptProfile) :
    ensurePaths base (ensurePaths base p) = ensurePaths base p := by
  cases hp : p.log_path <;> simp [ensurePaths, hp]

/- ------------------------------------------------------------------ -/
/- Claim theorems                                                      -/
/- ------------------------------------------------------------------ -/

/-- C3 counterexample: a store file whose single byte 0xFF is not UTF-8
text exists and cannot be decoded, yet load_profiles writes no backup
before failing — read_text raises UnicodeDecodeError, which the handler
for json.JSONDecodeError does not catch. -/
theorem corruptStore_counterexample :
    (loadProfiles "/base" (StoreFile.corruptUtf8 [255])).backup = none
    ∧ (loadProfiles "/base" (StoreFile.corruptUtf8 [255])).result
        = Except.error LoadErr.unicodeDecodeError
    ∧ ¬ ∃ b, (loadProfiles "/base" (StoreFile.corruptUtf8 [255])).backup = some b := by
  refine ⟨rfl, rfl, ?_⟩
  rintro ⟨b, hb⟩
  simp [loadProfiles] at hb

/-- C3 amended: when the store file is UTF-8 text that json.loads rejects,
load writes a byte-identical backup at the sibling .bak path and then
signals the decode failure, leaving the original file untouched; when the
bytes are not valid UTF-8 at all, the decode failure is signalled with no
backup written, and the original file is still untouched — in neither case
are the file's contents discarded. -/
theorem corruptStore_backup (base text : String) (bytes : List Nat) :
    loadProfiles base (StoreFile.corruptJson text)
      = { result := Except.error LoadErr.jsonDecodeError,
          backup := some (StoreFile.corruptJson text),
          storeAfter := StoreFile.corruptJson text }
    ∧ loadProfiles base (StoreFile.corruptUtf8 bytes)
      = { result := Except.error LoadErr.unicodeDecodeError,
          backup := none,
          storeAfter := StoreFile.corruptUtf8 bytes } :=
  ⟨rfl, rfl⟩

/-- C5: saving any profile set and loading it back yields the same set up
to the path normalization that both sides apply via ensure_paths. -/
theorem profileStore_roundtrip (base : String) (ps : List ScriptProfile) :
    (loadProfiles base (saveProfiles base ps)).result
      = Except.ok (ps.map (ensurePaths base)) := by
  have key : ∀ l : List ScriptProfile,
      profilesFromItems base (l.map (fun p => JValue.obj (profileFields (ensurePaths base p))))
        = some (l.map (ensurePaths base)) := by
    intro l
    induction l with
    | nil => rfl
    | cons q rest ih =>
      simp [profilesFromItems, profileFromDict_profileFields, ih, ensurePaths_idem]
  simp [loadProfiles, saveProfiles, profileToJson, key]

/-- C7: calling stop twice leaves the runner STOPPED with its pid cleared,
and the second call runs no termination ladder — beyond re-emitting the
STOPPED status it changes nothing. -/
theorem stop_idempotent (r : RunnerSt) (f1 f2 : Bool) (env1 env2 : TermEnv) :
    ((r.stop f1 env1).1.stop f2 env2).1 = (r.stop f1 env1).1
    ∧ ((r.stop f1 env1).1.stop f2 env2).2.ladder = none
    ∧ ((r.stop f1 env1).1.stop f2 env2).2.emits = [(r.stop f1 env1).1.status]
    ∧ (r.stop f1 env1).1.status.state = ProcessState.stopped
    ∧ (r.stop f1 env1).1.status.pid = none :=
  ⟨rfl, rfl, rfl, rfl, rfl⟩

/-- C4: when the graceful signal is deliverable and poll agrees with the
10 second wait, the termination ladder runs exactly as specified — SIGTERM
then up to 10 seconds, SIGINT then up to 5 seconds when the process
survived (or force was requested), SIGKILL then up to 5 seconds when it
still survived; and a process-already-gone condition at any send step is
reported as success, both on the group signal and on the fallback. -/
theorem terminationLadder_order (env : TermEnv) (force : Bool)
    (hsend : sendSignalResult env.termAttempt = true)
    (halive : env.aliveAtCheck = !env.exitWithin10) :
    terminateProcess env force = specLadder env force
    ∧ (∀ fb : FallbackOutcome,
        sendSignalResult { killpg := KillpgOutcome.noSuchProcess, fallback := fb } = true)
    ∧ sendSignalResult
        { killpg := KillpgOutcome.permissionDenied,
          fallback := FallbackOutcome.noSuchProcess } = true := by
  refine ⟨?_, fun fb => rfl, rfl⟩
  cases h10 : env.exitWithin10 <;>
    simp_all [terminateProcess, specLadder]

theorem terminationLadder_order_witness :
    (sendSignalResult termEnvStuck.termAttempt = true
      ∧ termEnvStuck.aliveAtCheck = !termEnvStuck.exitWithin10)
    ∧ (terminateProcess termEnvStuck true = specLadder termEnvStuck true
      ∧ (∀ fb : FallbackOutcome,
          sendSignalResult { killpg := KillpgOutcome.noSuchProcess, fallback := fb } = true)
      ∧ sendSignalResult
          { killpg := KillpgOutcome.permissionDenied,
            fallback := FallbackOutcome.noSuchProcess } = true) :=
  ⟨⟨by decide, by decide⟩, terminationLadder_order termEnvStuck true (by decide) (by decide)⟩

/-- C6: with the script file absent, the first loop iteration raises the
FileNotFoundError inside _launch_process; the loop's handler records
FAILED with a message naming the missing path and breaks, so the loop
returns normally and nothing propagates to the caller. -/
theorem missingScript_failure (p : ScriptProfile) (fs : FS) (e : IterEnv)
    (rest : List IterEnv) (st0 : ProcessStatus)
    (hmiss : expanduser fs.home p.script_path ∉ fs.files)
    (hrun : e.stopAtHead = false) :
    (runLoop p fs (e :: rest) st0).1.state = ProcessState.failed
    ∧ (runLoop p fs (e :: rest) st0).1.last_error
        = some ("Script not found: " ++ expanduser fs.home p.script_path)
    ∧ statesOf (runLoop p fs (e :: rest) st0).2
        = [ProcessState.starting, ProcessState.failed] := by
  refine ⟨?_, ?_, ?_⟩ <;>
    simp [runLoop, runLoopAux, launchProcess, hmiss, hrun, statesOf]

theorem missingScript_failure_witness :
    (expanduser c6Fs.home c6Profile.script_path ∉ c6Fs.files
      ∧ c6Iter.stopAtHead = false)
    ∧ ((runLoop c6Profile c6Fs [c6Iter] c6St0).1.state = ProcessState.failed
      ∧ (runLoop c6Profile c6Fs [c6Iter] c6St0).1.last_error
          = some ("Script not found: " ++ expanduser c6Fs.home c6Profile.script_path)
      ∧ statesOf (runLoop c6Profile c6Fs [c6Iter] c6St0).2
          = [ProcessState.starting, ProcessState.failed]) :=
  ⟨⟨by simp [c6Fs], rfl⟩,
    missingScript_failure c6Profile c6Fs c6Iter [] c6St0 (by simp [c6Fs]) rfl⟩

/-- Generalized restart-budget run: from attempt count a with j+1 more
always-exiting iterations available and a + (j+1) = m+1, the loop emits
j full STARTING/RUNNING/RESTARTING rounds and one final
STARTING/RUNNING/FAILED round, ending with m+1 recorded restarts. -/
theorem runLoop_budget_aux (p : ScriptProfile) (fs : FS) (e : IterEnv) (m : Int) (pid : Int)
    (hroe : p.restart_on_exit = true) (hmax : p.max_restarts = some m)
    (hl : launchProcess fs p e.popenRes = Except.ok pid)
    (h1 : e.stopAtHead = false) (h2 : e.stopAfterWait = false) :
    ∀ (j a : Nat) (st : ProcessStatus), (a : Int) + (j + 1) = m + 1 →
      statesOf (runLoopAux p fs (List.replicate (j+1) e) a st).2
        = (List.replicate j [ProcessState.starting, ProcessState.running,
            ProcessState.restarting]).flatten
          ++ [ProcessState.starting, ProcessState.running, ProcessState.failed]
      ∧ (runLoopAux p fs (List.replicate (j+1) e) a st).1.restarts = a + (j + 1)
      ∧ (runLoopAux p fs (List.replicate (j+1) e) a st).1.state = ProcessState.failed
      ∧ (runLoopAux p fs (List.replicate (j+1) e) a st).1.last_error
          = some "Reached max restart attempts" := by
  intro j
  induction j with
  | zero =>
    intro a st ha
    have hb : exceedsBudget p.max_restarts (a + 1) = true := by
      rw [hmax]
      simp only [exceedsBudget, decide_eq_true_eq]
      push_cast at ha ⊢
      omega
    simp [List.replicate_succ, runLoopAux, h1, hl, h2, hroe, hb, statesOf]
  | succ j ih =>
    intro a st ha
    have hb : exceedsBudget p.max_restarts (a + 1) = false := by
      rw [hmax]
      simp only [exceedsBudget, decide_eq_false_iff_not, not_lt]
      push_cast at ha ⊢
      omega
    obtain ⟨i1, i2, i3, i4⟩ := ih (a + 1)
      { st with state := ProcessState.restarting, pid := none,
                start_time := some e.launchTime, restarts := a + 1,
                last_exit_code := some e.exitCode }
      (by push_cast at ha ⊢; omega)
    rw [List.replicate_succ]
    simp [runLoopAux, h1, hl, h2, hroe, hb, statesOf] at i1 i2 i3 i4 ⊢
    refine ⟨?_, ?_, i3, i4⟩
    · rw [i1]
      simp [List.replicate_succ]
    · omega

theorem lookupA_insertA_ne {α : Type} (l : List (String × α)) (k key : String) (v : α)
    (h : k ≠ key) : lookupA (insertA l k v) key = lookupA l key := by
  induction l with
  | nil => simp [insertA, lookupA, h]
  | cons kv rest ih =>
    obtain ⟨k1, w⟩ := kv
    by_cases hk : k1 = k
    · subst hk
      simp [insertA, lookupA, h]
    · simp [insertA, lookupA, hk, ih]

theorem startProfile_profiles (s : MgrState) (k : String) :
    (startProfile s k).profiles = s.profiles := by
  cases h : lookupA s.profiles k with
  | none => simp [startProfile, h]
  | some p =>
    cases hp : p.enabled with
    | false => simp [startProfile, h, hp]
    | true =>
      cases hr : lookupA s.runners k with
      | none => simp [startProfile, h, hp, hr]
      | some r => simp [startProfile, h, hp, hr]

theorem startProfile_statuses (s : MgrState) (k : String) :
    (startProfile s k).statuses = s.statuses := by
  cases h : lookupA s.profiles k with
  | none => simp [startProfile, h]
  | some p =>
    cases hp : p.enabled with
    | false => simp [startProfile, h, hp]
    | true =>
      cases hr : lookupA s.runners k with
      | none => simp [startProfile, h, hp, hr]
      | some r => simp [startProfile, h, hp, hr]

/-- start_profile never touches the runner entry of a disabled profile:
either it targets another key, or the enabled check bails out first. -/
theorem startProfile_runners_other (s : MgrState) (k key : String) (p : ScriptProfile)
    (hname : lookupA s.profiles key = some p) (hd : p.enabled = false) :
    lookupA (startProfile s k).runners key = lookupA s.runners key := by
  by_cases hk : k = key
  · subst hk
    simp [startProfile, hname, hd]
  · cases h : lookupA s.profiles k with
    | none => simp [startProfile, h]
    | some q =>
      cases hq : q.enabled with
      | false => simp [startProfile, h, hq]
      | true =>
        cases hr : lookupA s.runners k with
        | none => simp [startProfile, h, hq, hr]
        | some r => simp [startProfile, h, hq, hr, lookupA_insertA_ne _ _ _ _ hk]

/-- Invariant carried through the start_auto_profiles fold: the profile
and status maps never change, and the runner entry of a disabled profile
is never replaced. -/
theorem startAuto_aux (sOrig : MgrState) (key : String) (p : ScriptProfile)
    (hname : lookupA sOrig.profiles key = some p) (hd : p.enabled = false) :
    ∀ (l : List ScriptProfile) (acc : MgrState),
      acc.profiles = sOrig.profiles →
      lookupA acc.runners key = lookupA sOrig.runners key →
      acc.statuses = sOrig.statuses →
      (l.foldl (fun acc2 q => if q.enabled && q.auto_start then startProfile acc2 q.name
        else acc2) acc).profiles = sOrig.profiles
      ∧ lookupA (l.foldl (fun acc2 q => if q.enabled && q.auto_start then startProfile acc2 q.name
          else acc2) acc).runners key = lookupA sOrig.runners key
      ∧ (l.foldl (fun acc2 q => if q.enabled && q.auto_start then startProfile acc2 q.name
          else acc2) acc).statuses = sOrig.statuses := by
  intro l
  induction l with
  | nil =>
    intro acc h1 h2 h3
    exact ⟨h1, h2, h3⟩
  | cons q rest ih =>
    intro acc h1 h2 h3
    simp only [List.foldl_cons]
    by_cases hq : (q.enabled && q.auto_start) = true
    · rw [if_pos hq]
      refine ih (startProfile acc q.name) ?_ ?_ ?_
      · rw [startProfile_profiles, h1]
      · rw [startProfile_runners_other acc q.name key p (by rw [h1]; exact hname) hd, h2]
      · rw [startProfile_statuses, h3]
    · rw [if_neg hq]
      exact ih acc h1 h2 h3

/-- Restart accounting holds along every emitted trace: each snapshot
relates to its predecessor by restartStep, provided the status record is
in sync with the attempt counter at entry (as _run_loop guarantees). -/
theorem runLoop_restart_chain (p : ScriptProfile) (fs : FS) :
    ∀ (envs : List IterEnv) (a : Nat) (st : ProcessStatus), st.restarts = a →
      List.Chain' restartStep (st :: (runLoopAux p fs envs a st).2) := by
  intro envs
  induction envs with
  | nil =>
    intro a st h
    simp [runLoopAux]
  | cons e rest ih =>
    intro a st h
    cases hstop : e.stopAtHead with
    | true => simp [runLoopAux, hstop]
    | false =>
      cases hl : launchProcess fs p e.popenRes with
      | error msg =>
        simp [runLoopAux, hstop, hl, List.chain'_cons, restartStep]
      | ok pid =>
        cases hw : e.stopAfterWait with
        | true =>
          simp [runLoopAux, hstop, hl, hw, List.chain'_cons, restartStep]
        | false =>
          cases hroe : p.restart_on_exit with
          | false =>
            simp [runLoopAux, hstop, hl, hw, hroe, List.chain'_cons, restartStep]
          | true =>
            cases hb : exceedsBudget p.max_restarts (a + 1) with
            | true =>
              simp [runLoopAux, hstop, hl, hw, hroe, hb, List.chain'_cons, restartStep, h]
            | false =>
              have hih := ih (a + 1)
                { st with state := ProcessState.restarting, pid := none,
                          start_time := some e.launchTime, restarts := a + 1,
                          last_exit_code := some e.exitCode } (by simp)
              simp [runLoopAux, hstop, hl, hw, hroe, hb, List.chain'_cons, restartStep, h]
              exact hih

/-- Whatever an iteration does, its first emitted snapshot is the STARTING
one, carrying the entry status otherwise unchanged. -/
theorem runLoopAux_head (p : ScriptProfile) (fs : FS) (e : IterEnv) (rest : List IterEnv)
    (a : Nat) (st : ProcessStatus) (h : e.stopAtHead = false) :
    (runLoopAux p fs (e :: rest) a st).2.head?
      = some { st with state := ProcessState.starting } := by
  cases hl : launchProcess fs p e.popenRes with
  | error msg => simp [runLoopAux, h, hl]
  | ok pid =>
    cases hw : e.stopAfterWait with
    | true => simp [runLoopAux, h, hl, hw]
    | false =>
      cases hroe : p.restart_on_exit with
      | false => simp [runLoopAux, h, hl, hw, hroe]
      | true =>
        cases hb : exceedsBudget p.max_restarts (a + 1) with
        | true => simp [runLoopAux, h, hl, hw, hroe, hb]
        | false => simp [runLoopAux, h, hl, hw, hroe, hb]

/-- The final restart count of a loop run does not depend on the entry
status record beyond its restarts field. -/
theorem runLoopAux_restarts_indep (p : ScriptProfile) (fs : FS) :
    ∀ (envs : List IterEnv) (a : Nat) (st st1 : ProcessStatus),
      st.restarts = st1.restarts →
      (runLoopAux p fs envs a st).1.restarts = (runLoopAux p fs envs a st1).1.restarts := by
  intro envs
  induction envs with
  | nil =>
    intro a st st1 h
    simpa [runLoopAux] using h
  | cons e rest ih =>
    intro a st st1 h
    cases hstop : e.stopAtHead with
    | true => simpa [runLoopAux, hstop] using h
    | false =>
      cases hl : launchProcess fs p e.popenRes with
      | error msg => simpa [runLoopAux, hstop, hl] using h
      | ok pid =>
        cases hw : e.stopAfterWait with
        | true => simpa [runLoopAux, hstop, hl, hw] using h
        | false =>
          cases hroe : p.restart_on_exit with
          | false => simpa [runLoopAux, hstop, hl, hw, hroe] using h
          | true =>
            cases hb : exceedsBudget p.max_restarts (a + 1) with
            | true => simp [runLoopAux, hstop, hl, hw, hroe, hb]
            | false =>
              simp only [runLoopAux, hstop, hl, hw, hroe, hb]
              simp only [Bool.false_eq_true, if_false, Bool.not_true, Bool.not_false,
                if_true]
              exact ih (a + 1) _ _ (by simp)

/-- C1 counterexample: with max_restarts = 2 and a script that exits
immediately every run, the loop performs exactly 3 launches but ends with
status.restarts = 3 — not 2 — and emits RESTARTING only twice: the third
exit goes STARTING, RUNNING and then straight to FAILED, because the
counter is written before the budget check and the RESTARTING transition
is skipped on the over-budget pass. -/
theorem restartBudget_counterexample :
    (runLoop (c1Profile 2) c1Fs (List.replicate 5 c1Iter) c1St0).1.restarts = 3
    ∧ statesOf (runLoop (c1Profile 2) c1Fs (List.replicate 5 c1Iter) c1St0).2
        = [ProcessState.starting, ProcessState.running, ProcessState.restarting,
           ProcessState.starting, ProcessState.running, ProcessState.restarting,
           ProcessState.starting, ProcessState.running, ProcessState.failed]
    ∧ (runLoop (c1Profile 2) c1Fs (List.replicate 5 c1Iter) c1St0).1.restarts ≠ 2
    ∧ statesOf (runLoop (c1Profile 2) c1Fs (List.replicate 5 c1Iter) c1St0).2
        ≠ (List.replicate 3 [ProcessState.starting, ProcessState.running,
            ProcessState.restarting]).flatten ++ [ProcessState.failed] := by
  refine ⟨by decide, by decide, by decide, by decide⟩

/-- C1 amended: with max_restarts = N and a script that exits every run,
the unit fails after exactly N+1 launches: the emitted sequence is
STARTING, RUNNING, RESTARTING repeated N times followed by STARTING,
RUNNING, FAILED, and the loop ends FAILED with last_error reporting the
exhausted restart budget and status.restarts = N+1. -/
theorem restartBudget_exhaustion (n : Nat) :
    statesOf (runLoop (c1Profile n) c1Fs (List.replicate (n+1) c1Iter) c1St0).2
      = (List.replicate n [ProcessState.starting, ProcessState.running,
          ProcessState.restarting]).flatten
        ++ [ProcessState.starting, ProcessState.running, ProcessState.failed]
    ∧ (runLoop (c1Profile n) c1Fs (List.replicate (n+1) c1Iter) c1St0).1.restarts = n + 1
    ∧ (runLoop (c1Profile n) c1Fs (List.replicate (n+1) c1Iter) c1St0).1.state
        = ProcessState.failed
    ∧ (runLoop (c1Profile n) c1Fs (List.replicate (n+1) c1Iter) c1St0).1.last_error
        = some "Reached max restart attempts" := by
  obtain ⟨h1, h2, h3, h4⟩ := runLoop_budget_aux (c1Profile n) c1Fs c1Iter n 4242
    rfl rfl rfl rfl rfl n 0 { c1St0 with restarts := 0 } (by push_cast; ring)
  exact ⟨h1, by simpa using h2, h3, h4⟩

/-- C2 counterexample: a registered profile with enabled = false is
launched by restart_profile, which delegates to the runner without
consulting the enabled flag: after the call a fresh loop thread has been
spawned for the disabled unit. -/
theorem disabledProfile_counterexample :
    (lookupA c2Mgr0.profiles "d1").map ScriptProfile.enabled = some false
    ∧ (lookupA (restartProfile c2Mgr0 "d1" termEnvQuick).runners "d1").map RunnerSt.launches
        = some 1
    ∧ (lookupA (restartProfile c2Mgr0 "d1" termEnvQuick).runners "d1").map RunnerSt.threadAlive
        = some true
    ∧ (lookupA (restartProfile c2Mgr0 "d1" termEnvQuick).runners "d1").map RunnerSt.launches
        ≠ some 0 := by
  refine ⟨rfl, rfl, rfl, by decide⟩

/-- C2 amended: for a registered profile with enabled = false,
start_profile is a complete no-op and start_auto_profiles leaves the
profile map, the status map and the unit's runner untouched, so neither
command launches the unit or moves it out of STOPPED; restart_profile,
however, bypasses the enabled check (see the counterexample). -/
theorem disabledProfile_never_started (s : MgrState) (key : String) (p : ScriptProfile)
    (hname : lookupA s.profiles key = some p) (hd : p.enabled = false) :
    startProfile s key = s
    ∧ (startAutoProfiles s).profiles = s.profiles
    ∧ lookupA (startAutoProfiles s).runners key = lookupA s.runners key
    ∧ (startAutoProfiles s).statuses = s.statuses := by
  refine ⟨by simp [startProfile, hname, hd], ?_, ?_, ?_⟩ <;>
  · have h := startAuto_aux s key p hname hd (s.profiles.map (fun kv => kv.2)) s rfl rfl rfl
    simp only [startAutoProfiles]
    tauto

theorem disabledProfile_never_started_witness :
    (lookupA c2Mgr0.profiles "d1" = some (ensurePaths "/base" c2Profile)
      ∧ (ensurePaths "/base" c2Profile).enabled = false)
    ∧ (startProfile c2Mgr0 "d1" = c2Mgr0
      ∧ (startAutoProfiles c2Mgr0).profiles = c2Mgr0.profiles
      ∧ lookupA (startAutoProfiles c2Mgr0).runners "d1" = lookupA c2Mgr0.runners "d1"
      ∧ (startAutoProfiles c2Mgr0).statuses = c2Mgr0.statuses) :=
  ⟨⟨rfl, rfl⟩,
    disabledProfile_never_started c2Mgr0 "d1" (ensurePaths "/base" c2Profile) rfl rfl⟩

/-- C8: an exit observed with the cancellation flag already set takes the
STOPPED branch and leaves the restart counter exactly as it was; and over
any run, every emitted snapshot respects restartStep — a STOPPED snapshot
never carries an incremented count, only RESTARTING (and over-budget
FAILED) snapshots do. -/
theorem stop_no_restart_increment (p : ScriptProfile) (fs : FS) (e : IterEnv)
    (rest envs : List IterEnv) (attempts a : Nat) (st st1 : ProcessStatus) (pid : Int)
    (h1 : e.stopAtHead = false)
    (h2 : launchProcess fs p e.popenRes = Except.ok pid)
    (h3 : e.stopAfterWait = true)
    (h4 : st1.restarts = a) :
    (runLoopAux p fs (e :: rest) attempts st).1.restarts = st.restarts
    ∧ (runLoopAux p fs (e :: rest) attempts st).1.state = ProcessState.stopped
    ∧ List.Chain' restartStep (st1 :: (runLoopAux p fs envs a st1).2) := by
  refine ⟨?_, ?_, runLoop_restart_chain p fs envs a st1 h4⟩ <;>
    simp [runLoopAux, h1, h2, h3]

theorem stop_no_restart_increment_witness :
    (c8Iter.stopAtHead = false
      ∧ launchProcess c8Fs c8Profile c8Iter.popenRes = Except.ok 5151
      ∧ c8Iter.stopAfterWait = true
      ∧ c8St0.restarts = 0)
    ∧ ((runLoopAux c8Profile c8Fs [c8Iter] 0 c8St0).1.restarts = c8St0.restarts
      ∧ (runLoopAux c8Profile c8Fs [c8Iter] 0 c8St0).1.state = ProcessState.stopped
      ∧ List.Chain' restartStep (c8St0 :: (runLoopAux c8Profile c8Fs [c8Iter] 0 c8St0).2)) :=
  ⟨⟨rfl, rfl, rfl, rfl⟩,
    stop_no_restart_increment c8Profile c8Fs c8Iter [] [c8Iter] 0 0 c8St0 c8St0 5151
      rfl rfl rfl rfl⟩

/-- C9: update_profile that renames a unit onto a different existing name
raises the conflict before any mutation: the call returns the conflict
error and the profile, runner and status maps — including the still
running original runner — are exactly as before. -/
theorem updateProfile_nameConflict (s : MgrState) (key : String) (newp : ScriptProfile)
    (pOld pCol : ScriptProfile) (env : TermEnv)
    (hold : lookupA s.profiles key = some pOld)
    (hne : newp.name ≠ key)
    (hcol : lookupA s.profiles newp.name = some pCol) :
    updateProfile s key newp env = (s, some MgrErr.nameConflict)
    ∧ (updateProfile s key newp env).1.runners = s.runners
    ∧ (updateProfile s key newp env).1.profiles = s.profiles
    ∧ (updateProfile s key newp env).1.statuses = s.statuses := by
  have hmain : updateProfile s key newp env = (s, some MgrErr.nameConflict) := by
    simp [updateProfile, hold, hcol, hne]
  exact ⟨hmain, by rw [hmain], by rw [hmain], by rw [hmain]⟩

theorem updateProfile_nameConflict_witness :
    (lookupA c9Mgr.profiles "a" = some c9ProfileA
      ∧ c9NewProfile.name ≠ "a"
      ∧ lookupA c9Mgr.profiles c9NewProfile.name = some c9ProfileB
      ∧ (lookupA c9Mgr.runners "a").map RunnerSt.isRunning = some true)
    ∧ (updateProfile c9Mgr "a" c9NewProfile termEnvQuick = (c9Mgr, some MgrErr.nameConflict)
      ∧ (updateProfile c9Mgr "a" c9NewProfile termEnvQuick).1.runners = c9Mgr.runners
      ∧ (updateProfile c9Mgr "a" c9NewProfile termEnvQuick).1.profiles = c9Mgr.profiles
      ∧ (updateProfile c9Mgr "a" c9NewProfile termEnvQuick).1.statuses = c9Mgr.statuses) :=
  ⟨⟨rfl, by decide, rfl, rfl⟩,
    updateProfile_nameConflict c9Mgr "a" c9NewProfile c9ProfileA c9ProfileB termEnvQuick
      rfl (by decide) rfl⟩

/-- C10: every fresh loop run resets the restart counter to zero at
entry — the final count is independent of whatever the status record held
before — while the STARTING snapshot of the first iteration still carries
the previous run's last_error and last_exit_code unchanged. -/
theorem freshLoop_resets_restarts (p : ScriptProfile) (fs : FS) (e : IterEnv)
    (rest envs : List IterEnv) (st0 st1 : ProcessStatus)
    (h : e.stopAtHead = false) :
    (runLoop p fs (e :: rest) st0).2.head?
      = some { st0 with restarts := 0, state := ProcessState.starting }
    ∧ (runLoop p fs envs st0).1.restarts = (runLoop p fs envs st1).1.restarts := by
  constructor
  · have hh := runLoopAux_head p fs e rest 0 { st0 with restarts := 0 } h
    simpa [runLoop] using hh
  · exact runLoopAux_restarts_indep p fs envs 0 _ _ (by simp)

theorem freshLoop_resets_restarts_witness :
    c10Iter.stopAtHead = false
    ∧ ((runLoop c10Profile c10Fs [c10Iter] c10St0).2.head?
        = some { c10St0 with restarts := 0, state := ProcessState.starting }
      ∧ (runLoop c10Profile c10Fs [c10Iter] c10St0).1.restarts
          = (runLoop c10Profile c10Fs [c10Iter] c10St1).1.restarts) :=
  ⟨rfl, freshLoop_resets_restarts c10Profile c10Fs c10Iter [] [c10Iter] c10St0 c10St1 rfl⟩
